import Mathlib

/-!
Shallow embedding of `src/TravelApp.py` (the Currensee travel currency app).

Python values that may be absent are modelled with `Option`; Python string
truthiness (`not s` is true for both `None` and `""`) is modelled by
`strTruthy` / `strOr`.  JSON objects are modelled as association lists in
provider order, since Python `dict` preserves insertion order.  Exchange
rates are modelled as rationals (`Rat`).  Network effects are modelled
explicitly: `get_pair_rate_on_day` receives an environment holding the
configured API key, the current date and a network oracle, and returns the
result together with the list of HTTP requests it issued, so that claims
about "zero network calls" or "exactly one request" are statable.
-/

namespace TravelApp

/-- Python truthiness of an optional string: `not x` holds for `None` and `""`. -/
def strTruthy : Option String → Bool
  | none => false
  | some s => !s.isEmpty

/-- Python `a or b` for an optional string `a` and a string default `b`:
falls back to `b` when `a` is `None` or `""`. -/
def strOr (a : Option String) (b : String) : String :=
  match a with
  | none => b
  | some s => if s.isEmpty then b else s

/-- Python `a or b` where both sides are optional strings
(used for `flags.png or flags.svg`). -/
def strOrOpt (a b : Option String) : Option String :=
  match a with
  | none => b
  | some s => if s.isEmpty then b else some s

/-- The `name` sub-object of a restcountries record (`{"common": ...}`). -/
structure RawName where
  common : Option String
deriving DecidableEq, Repr

/-- The `flags` sub-object of a restcountries record. -/
structure RawFlags where
  png : Option String
  svg : Option String
deriving DecidableEq, Repr

/-- One currency entry of a restcountries record (`{"name": ..., "symbol": ...}`). -/
structure CurrencyInfo where
  name : Option String
  symbol : Option String
deriving DecidableEq, Repr

/-- A raw country record as returned by the restcountries provider.
`currencies` is an association list in provider order (Python preserves
dict insertion order). -/
structure RawCountry where
  name : Option RawName
  cca2 : Option String
  flags : Option RawFlags
  capital : Option (List String)
  region : Option String
  currencies : Option (List (String × CurrencyInfo))
deriving DecidableEq, Repr

/-- A normalized country, as built by `load_countries`. -/
structure Country where
  name : String
  cca2 : String
  flag_url : Option String
  capital : Option String
  region : Option String
  currency_code : String
  currency_name : String
  currency_symbol : String
deriving DecidableEq, Repr

/-- `(c.get("name") or {}).get("common")`. -/
def rawName (c : RawCountry) : Option String :=
  (c.name.getD ⟨none⟩).common

/-- `(c.get("flags") or {}).get("png") or (c.get("flags") or {}).get("svg")`. -/
def rawFlag (c : RawCountry) : Option String :=
  strOrOpt (c.flags.getD ⟨none, none⟩).png (c.flags.getD ⟨none, none⟩).svg

/-- `(c.get("capital") or [None])[0]`: `None` when `capital` is missing or
the empty list, otherwise the first element. -/
def rawCapital (c : RawCountry) : Option String :=
  (c.capital.getD []).head?

/-- The body of the `for c in data` loop of `load_countries`: builds a
`Country` from one raw record, or `none` when the record is skipped by
`if not name or not cca2 or not currency_codes: continue`. -/
def buildCountry (c : RawCountry) : Option Country :=
  let currencies_obj := c.currencies.getD []
  match rawName c, c.cca2, currencies_obj.map Prod.fst with
  | some name, some cca2, primary_code :: _ =>
    if name.isEmpty || cca2.isEmpty then none
    else
      let node := (List.lookup primary_code currencies_obj).getD ⟨none, none⟩
      some { name := name, cca2 := cca2, flag_url := rawFlag c,
             capital := rawCapital c, region := c.region,
             currency_code := primary_code,
             currency_name := strOr node.name primary_code,
             currency_symbol := strOr node.symbol "" }
  | _, _, _ => none

/-- `load_countries`, as a pure function of the provider response: keep the
records that survive the filter, then `countries.sort(key=lambda x: x["name"])`
(a stable ascending sort, modelled by `List.mergeSort`). -/
def load_countries (data : List RawCountry) : List Country :=
  (data.filterMap buildCountry).mergeSort (fun a b => decide (a.name ≤ b.name))

/-- A calendar date (`datetime.date`). -/
structure Date where
  year : Nat
  month : Nat
  day : Nat
deriving DecidableEq, Repr

/-- Zero-padded two-digit rendering of a month or day number. -/
def pad2 (n : Nat) : String :=
  if n < 10 then "0" ++ toString n else toString n

/-- Zero-padded four-digit rendering of a year number. -/
def pad4 (n : Nat) : String :=
  if n < 10 then "000" ++ toString n
  else if n < 100 then "00" ++ toString n
  else if n < 1000 then "0" ++ toString n
  else toString n

/-- `day.isoformat()`: `YYYY-MM-DD`. -/
def Date.isoformat (d : Date) : String :=
  pad4 d.year ++ "-" ++ pad2 d.month ++ "-" ++ pad2 d.day

/-- The error channel of the rate-lookup path.  The Python code raises
`RuntimeError` at two distinct sites (missing key, missing data) and
`requests.HTTPError` from `raise_for_status`; the constructors record
which site fired and the data carried in the message. -/
inductive AppError
  | missingKey (msg : String)
  | httpError (status : Nat)
  | missingData (currency : String) (gotKeys : List String)
deriving DecidableEq, Repr

/-- `_currencyapi_headers()`: fails when `CURRENCYAPI_KEY` is falsy
(`None` or `""`), otherwise returns the `{"apikey": key}` header dict. -/
def currencyapi_headers (key : Option String) : Except AppError (List (String × String)) :=
  if strTruthy key = false then
    .error (.missingKey
      "Missing CURRENCYAPI_KEY. Create api_keys.py with CURRENCYAPI_KEY='your_key'.")
  else
    .ok [("apikey", key.getD "")]

/-- Which currencyapi endpoint a request targets. -/
inductive Endpoint
  | latest
  | historical
deriving DecidableEq, Repr

/-- One HTTP GET request against the rate provider, with its query
parameters and headers. -/
structure Request where
  endpoint : Endpoint
  date : Option String
  base_currency : String
  currencies : String
  headers : List (String × String)
deriving DecidableEq, Repr

/-- A currencyapi response body: `{ "data": { <code>: { "value": <num> } } }`.
Each currency node is itself an association list of fields, so that a
missing `"value"` field and an empty node are both representable. -/
structure RespJson where
  data : Option (List (String × List (String × Rat)))
deriving DecidableEq, Repr

/-- An HTTP response: status code plus parsed JSON body. -/
structure HttpResponse where
  status : Nat
  json : RespJson

/-- `_get_json`: perform the request and `raise_for_status()` (an error for
any 4xx/5xx status), else return the JSON body. -/
def get_json (net : Request → HttpResponse) (req : Request) : Except AppError RespJson :=
  let r := net req
  if 400 ≤ r.status then .error (.httpError r.status) else .ok r.json

/-- `_parse_currencyapi_rate(resp_json, currency)`: extract
`resp_json["data"][currency]["value"]`; on a missing or empty node, or a
node without `"value"`, fail naming the currency and
`list(data.keys())[:10]`. -/
def parse_currencyapi_rate (resp_json : RespJson) (currency : String) : Except AppError Rat :=
  let data := resp_json.data.getD []
  let node := (List.lookup currency data).getD []
  if node = [] ∨ List.lookup "value" node = none then
    .error (.missingData currency ((data.map Prod.fst).take 10))
  else
    .ok ((List.lookup "value" node).getD 0)

/-- The ambient state `get_pair_rate_on_day` reads: the configured API key,
`date.today()`, and the network. -/
structure Env where
  key : Option String
  today : Date
  net : Request → HttpResponse

/-- `get_pair_rate_on_day(day, home, dest)`.  Returns the result together
with the list of HTTP requests issued, in order. -/
def get_pair_rate_on_day (env : Env) (day : Date) (home dest : String) :
    Except AppError Rat × List Request :=
  if home = dest then (.ok 1, [])
  else
    match currencyapi_headers env.key with
    | .error e => (.error e, [])
    | .ok headers =>
      if day = env.today then
        let req : Request :=
          { endpoint := .latest, date := none,
            base_currency := home, currencies := dest, headers := headers }
        ((get_json env.net req).bind (fun j => parse_currencyapi_rate j dest), [req])
      else
        let req : Request :=
          { endpoint := .historical, date := some day.isoformat,
            base_currency := home, currencies := dest, headers := headers }
        ((get_json env.net req).bind (fun j => parse_currencyapi_rate j dest), [req])

/-- `pct_change(current, past) = (current - past) / past * 100.0`. -/
def pct_change (current past : Rat) : Rat :=
  (current - past) / past * 100

/-- `favorability_label(diff_vs_1y)`: three-way verdict with inclusive
±7.5 thresholds. -/
def favorability_label (diff_vs_1y : Rat) : String :=
  if diff_vs_1y ≥ 7.5 then "🟢 More favorable than ~1y ago"
  else if diff_vs_1y ≤ -7.5 then "🔴 Less favorable than ~1y ago"
  else "🟡 Similar to ~1y ago"

/-- One row of the multi-country comparison table (the dict appended to
`rows`, with `% vs ~1y` called `pct`). -/
structure Row where
  country : String
  currency : String
  today_rate : Rat
  past_rate : Rat
  pct : Rat
  verdict : String
deriving DecidableEq, Repr

/-- The part of `s` strictly before the last occurrence of `sep`, or `none`
when `sep` does not occur in `s` (character-list level). -/
def lastSplitBefore (sep : List Char) : List Char → Option (List Char)
  | [] => if List.isPrefixOf sep [] then some [] else none
  | c :: rest =>
    match lastSplitBefore sep rest with
    | some pre => some (c :: pre)
    | none => if List.isPrefixOf sep (c :: rest) then some [] else none

/-- `lab.rsplit(" (", 1)[0]`: everything before the last occurrence of
`" ("`, or the whole string when it does not occur. -/
def labelName (lab : String) : String :=
  match lastSplitBefore [' ', '('] lab.toList with
  | some pre => String.mk pre
  | none => lab

/-- `name_to_country = {c["name"]: c for c in countries}` followed by
`.get(name)`; on duplicate names the later record wins, as in a Python
dict comprehension. -/
def name_to_country (countries : List Country) (name : String) : Option Country :=
  List.lookup name ((countries.map (fun c => (c.name, c))).reverse)

/-- The row-building loop of the multi-country compare flow, with the rate
lookups abstracted into a total oracle `getRate day home dest` (the claims
about ordering concern the all-fetches-succeed path).  Unresolvable labels
are skipped (`continue`); `home == dest` short-circuits both rates to 1. -/
def build_rows (countries : List Country) (home : String)
    (getRate : Date → String → String → Rat) (today d1y : Date)
    (selected_labels : List String) : List Row :=
  selected_labels.filterMap (fun lab =>
    match name_to_country countries (labelName lab) with
    | none => none
    | some c =>
      let dest := c.currency_code
      let r_today := if home = dest then 1 else getRate today home dest
      let r_1y := if home = dest then 1 else getRate d1y home dest
      let change := pct_change r_today r_1y
      some { country := c.name, currency := dest, today_rate := r_today,
             past_rate := r_1y, pct := change,
             verdict := favorability_label change })

/-- `rows.sort(key=lambda r: r["% vs ~1y"], reverse=True)`: a stable
descending sort by `pct`. -/
def sort_rows (rows : List Row) : List Row :=
  rows.mergeSort (fun a b => decide (b.pct ≤ a.pct))

/-- The multi-country compare flow: build one row per resolvable selected
label, then sort by `% vs ~1y` descending. -/
def compare_flow (countries : List Country) (home : String)
    (getRate : Date → String → String → Rat) (today d1y : Date)
    (selected_labels : List String) : List Row :=
  sort_rows (build_rows countries home getRate today d1y selected_labels)

/-! ## Concrete instances used as witnesses and stubbed scenarios -/

/-- A well-formed raw provider record for Japan. -/
def rawJapan : RawCountry :=
  ⟨some ⟨some "Japan"⟩, some "JP", none, none, some "Asia",
    some [("JPY", ⟨some "Japanese yen", some "¥"⟩)]⟩

/-- The normalized country `load_countries` builds from `rawJapan`. -/
def builtJapan : Country :=
  ⟨"Japan", "JP", none, none, some "Asia", "JPY", "Japanese yen", "¥"⟩

/-- Stub current date for the multi-destination scenario. -/
def exToday : Date := ⟨2026, 10, 12⟩

/-- Stub one-year-ago date for the multi-destination scenario. -/
def exPast : Date := ⟨2025, 10, 12⟩

/-- Destination A of the stubbed scenario (today 1.10, 1y ago 1.00). -/
def countryA : Country := ⟨"Aland", "AA", none, none, none, "AAA", "A currency", ""⟩

/-- Destination B of the stubbed scenario (today 1.00, 1y ago 1.00). -/
def countryB : Country := ⟨"Bland", "BB", none, none, none, "BBB", "B currency", ""⟩

/-- Destination C of the stubbed scenario (today 0.90, 1y ago 1.00). -/
def countryC : Country := ⟨"Cland", "CC", none, none, none, "CCC", "C currency", ""⟩

/-- Stubbed rate oracle: today AAA = 1.10, CCC = 0.90, everything else 1. -/
def exRate (day : Date) (_home dest : String) : Rat :=
  if day = exToday then
    if dest = "AAA" then 11 / 10 else if dest = "CCC" then 9 / 10 else 1
  else 1

/-- The comparison row the stubbed scenario produces for A (+10%). -/
def rowA : Row := ⟨"Aland", "AAA", 11 / 10, 1, 10, "🟢 More favorable than ~1y ago"⟩

/-- The comparison row the stubbed scenario produces for B (0%). -/
def rowB : Row := ⟨"Bland", "BBB", 1, 1, 0, "🟡 Similar to ~1y ago"⟩

/-- The comparison row the stubbed scenario produces for C (-10%). -/
def rowC : Row := ⟨"Cland", "CCC", 9 / 10, 1, -10, "🔴 Less favorable than ~1y ago"⟩

/-! ## Theorems -/

/-- C1: for every day and every currency code `x`,
`get_pair_rate_on_day(day, x, x)` returns exactly `1.0` and issues zero
network requests (the identity check short-circuits before any HTTP call). -/
theorem get_pair_rate_identity (env : Env) (day : Date) (x : String) :
    get_pair_rate_on_day env day x x = (.ok 1, []) := by
  simp [get_pair_rate_on_day]

/-- C10: the identity short-circuit precedes the credential check, so even
with no API key configured, `get_pair_rate_on_day(day, x, x)` returns `1.0`
successfully with no requests and no configuration error. -/
theorem get_pair_rate_identity_no_key (today : Date) (net : Request → HttpResponse)
    (day : Date) (x : String) :
    get_pair_rate_on_day ⟨none, today, net⟩ day x x = (.ok 1, []) := by
  simp [get_pair_rate_on_day]

/-- C2: `favorability_label` classifies with fixed inclusive symmetric
thresholds: `pct ≥ 7.5` is Favorable, `pct ≤ -7.5` is Unfavorable, and
everything strictly between is Similar; the boundary values evaluate as
`label 7.5` Favorable, `label 7.49` Similar, `label (-7.5)` Unfavorable,
`label (-7.49)` Similar, `label 0` Similar. -/
theorem favorability_label_spec (pct : Rat) :
    (pct ≥ 7.5 → favorability_label pct = "🟢 More favorable than ~1y ago")
    ∧ (pct ≤ -7.5 → favorability_label pct = "🔴 Less favorable than ~1y ago")
    ∧ (-7.5 < pct → pct < 7.5 → favorability_label pct = "🟡 Similar to ~1y ago")
    ∧ favorability_label 7.5 = "🟢 More favorable than ~1y ago"
    ∧ favorability_label 7.49 = "🟡 Similar to ~1y ago"
    ∧ favorability_label (-7.5) = "🔴 Less favorable than ~1y ago"
    ∧ favorability_label (-7.49) = "🟡 Similar to ~1y ago"
    ∧ favorability_label 0 = "🟡 Similar to ~1y ago" := by
  refine ⟨?_, ?_, ?_, ?_, ?_, ?_, ?_, ?_⟩
  · intro h
    unfold favorability_label
    rw [if_pos h]
  · intro h
    unfold favorability_label
    rw [if_neg (by push_neg; linarith), if_pos h]
  · intro h1 h2
    unfold favorability_label
    rw [if_neg (by push_neg; linarith), if_neg (by push_neg; linarith)]
  · norm_num [favorability_label]
  · norm_num [favorability_label]
  · norm_num [favorability_label]
  · norm_num [favorability_label]
  · norm_num [favorability_label]

/-- Witness for `favorability_label_spec` at `pct = 8`. -/
theorem favorability_label_spec_witness :
    (8 : Rat) ≥ 7.5 ∧ favorability_label 8 = "🟢 More favorable than ~1y ago" :=
  ⟨by norm_num, (favorability_label_spec 8).1 (by norm_num)⟩

/-- C3: for every `current` and nonzero `past`, `pct_change current past`
equals `(current - past) / past * 100`, and in particular
`pct_change 110 100 = 10`, `pct_change 90 100 = -10`,
`pct_change 100 100 = 0`. -/
theorem pct_change_spec (current past : Rat) (h : past ≠ 0) :
    pct_change current past = (current - past) / past * 100
    ∧ pct_change 110 100 = 10
    ∧ pct_change 90 100 = -10
    ∧ pct_change 100 100 = 0 :=
  ⟨rfl, by norm_num [pct_change], by norm_num [pct_change], by norm_num [pct_change]⟩

/-- Witness for `pct_change_spec` at `current = 110`, `past = 100`. -/
theorem pct_change_spec_witness :
    (100 : Rat) ≠ 0 ∧ pct_change 110 100 = 10 :=
  ⟨by norm_num, (pct_change_spec 110 100 (by norm_num)).2.1⟩

/-- C7: with no API key configured (key absent or empty, i.e. falsy), every
non-identity lookup fails with the missing-key configuration error and
issues zero network requests. -/
theorem get_pair_rate_missing_key (env : Env) (day : Date) (home dest : String)
    (hk : strTruthy env.key = false) (hne : home ≠ dest) :
    get_pair_rate_on_day env day home dest =
      (.error (.missingKey
        "Missing CURRENCYAPI_KEY. Create api_keys.py with CURRENCYAPI_KEY='your_key'."), []) := by
  unfold get_pair_rate_on_day
  rw [if_neg hne]
  simp [currencyapi_headers, hk]

/-- Witness for `get_pair_rate_missing_key`: key unset, `USD → JPY`. -/
theorem get_pair_rate_missing_key_witness :
    strTruthy (Env.key ⟨none, ⟨2026, 10, 12⟩, fun _ => ⟨200, ⟨none⟩⟩⟩) = false
    ∧ ("USD" : String) ≠ "JPY"
    ∧ get_pair_rate_on_day ⟨none, ⟨2026, 10, 12⟩, fun _ => ⟨200, ⟨none⟩⟩⟩
        ⟨2026, 10, 12⟩ "USD" "JPY" =
      (.error (.missingKey
        "Missing CURRENCYAPI_KEY. Create api_keys.py with CURRENCYAPI_KEY='your_key'."), []) :=
  ⟨rfl, by decide,
    get_pair_rate_missing_key ⟨none, ⟨2026, 10, 12⟩, fun _ => ⟨200, ⟨none⟩⟩⟩
      ⟨2026, 10, 12⟩ "USD" "JPY" rfl (by decide)⟩

/-- C6: with a configured key and `home ≠ dest`, `get_pair_rate_on_day`
issues exactly one request: a latest request with `base_currency = home`,
`currencies = dest` and no date when `day` is today, otherwise a historical
request that additionally carries `date = day.isoformat` (ISO `YYYY-MM-DD`). -/
theorem get_pair_rate_requests (env : Env) (day : Date) (home dest : String)
    (headers : List (String × String))
    (hne : home ≠ dest) (hk : currencyapi_headers env.key = .ok headers) :
    (get_pair_rate_on_day env day home dest).2 =
      [{ endpoint := if day = env.today then .latest else .historical,
         date := if day = env.today then none else some day.isoformat,
         base_currency := home, currencies := dest, headers := headers }] := by
  unfold get_pair_rate_on_day
  rw [if_neg hne, hk]
  by_cases ht : day = env.today <;> simp [ht]

/-- Witness for `get_pair_rate_requests`: a past day against today
2026-10-12 yields a single historical request with the ISO date. -/
theorem get_pair_rate_requests_witness :
    ("USD" : String) ≠ "JPY"
    ∧ currencyapi_headers (Env.key ⟨some "k", ⟨2026, 10, 12⟩, fun _ => ⟨200, ⟨none⟩⟩⟩) =
        .ok [("apikey", "k")]
    ∧ (get_pair_rate_on_day ⟨some "k", ⟨2026, 10, 12⟩, fun _ => ⟨200, ⟨none⟩⟩⟩
        ⟨2025, 10, 12⟩ "USD" "JPY").2 =
      [{ endpoint := .historical, date := some "2025-10-12",
         base_currency := "USD", currencies := "JPY",
         headers := [("apikey", "k")] }] := by
  refine ⟨by decide, rfl, ?_⟩
  have h := get_pair_rate_requests ⟨some "k", ⟨2026, 10, 12⟩, fun _ => ⟨200, ⟨none⟩⟩⟩
    ⟨2025, 10, 12⟩ "USD" "JPY" [("apikey", "k")] (by decide) rfl
  simpa using h

/-- C8 counterexample: a response with 11 currency codes and no entry for
`"EUR"` produces a missing-data error that names only the first 10 codes,
not the set of codes actually present (`"C10"` is present but unnamed). -/
theorem parse_rate_keys_truncated :
    parse_currencyapi_rate
        ⟨some [("C00", [("value", 1)]), ("C01", [("value", 1)]), ("C02", [("value", 1)]),
               ("C03", [("value", 1)]), ("C04", [("value", 1)]), ("C05", [("value", 1)]),
               ("C06", [("value", 1)]), ("C07", [("value", 1)]), ("C08", [("value", 1)]),
               ("C09", [("value", 1)]), ("C10", [("value", 1)])]⟩ "EUR" =
      .error (.missingData "EUR"
        ["C00", "C01", "C02", "C03", "C04", "C05", "C06", "C07", "C08", "C09"])
    ∧ "C10" ∈ (RespJson.data
        ⟨some [("C00", [("value", 1)]), ("C01", [("value", 1)]), ("C02", [("value", 1)]),
               ("C03", [("value", 1)]), ("C04", [("value", 1)]), ("C05", [("value", 1)]),
               ("C06", [("value", 1)]), ("C07", [("value", 1)]), ("C08", [("value", 1)]),
               ("C09", [("value", 1)]), ("C10", [("value", 1)])]⟩ |>.getD []).map Prod.fst
    ∧ "C10" ∉ ["C00", "C01", "C02", "C03", "C04", "C05", "C06", "C07", "C08", "C09"] := by
  refine ⟨by rfl, by decide, by decide⟩

/-- C8 (amended): when the response's data mapping has no usable entry for
`dest` (no entry at all, an empty entry, or an entry without a `"value"`
field), parsing fails with a data-shape error naming `dest` and the first
10 currency codes present in the data (the diagnostic key list is
truncated to at most 10 entries). -/
theorem parse_rate_missing_data (resp : RespJson) (dest : String)
    (h : ∀ node, List.lookup dest (resp.data.getD []) = some node →
        List.lookup "value" node = none) :
    parse_currencyapi_rate resp dest =
      .error (.missingData dest (((resp.data.getD []).map Prod.fst).take 10)) := by
  unfold parse_currencyapi_rate
  rcases hl : List.lookup dest (resp.data.getD []) with _ | node
  · simp [hl]
  · have hv := h node hl
    simp [hl, hv]

/-- Witness for `parse_rate_missing_data`: a response carrying only `"USD"`
data, queried for `"EUR"`. -/
theorem parse_rate_missing_data_witness :
    (∀ node, List.lookup "EUR"
        ((RespJson.data ⟨some [("USD", [("value", 2)])]⟩).getD []) = some node →
      List.lookup "value" node = none)
    ∧ parse_currencyapi_rate ⟨some [("USD", [("value", 2)])]⟩ "EUR" =
        .error (.missingData "EUR" ["USD"]) := by
  have hvac : ∀ node, List.lookup "EUR"
      ((RespJson.data ⟨some [("USD", [("value", 2)])]⟩).getD []) = some node →
      List.lookup "value" node = none := by
    intro node hn
    simp [List.lookup] at hn
  refine ⟨hvac, ?_⟩
  have h := parse_rate_missing_data ⟨some [("USD", [("value", 2)])]⟩ "EUR" hvac
  simpa using h

/-- C4: `load_countries` retains a raw record iff the record has a truthy
(present, non-empty) name and `cca2` and at least one currency entry; the
result is the retained records sorted by name ascending (and a permutation
of them), with dropped records producing no error (`buildCountry` is total). -/
theorem load_countries_spec (data : List RawCountry) :
    (load_countries data).Pairwise (fun a b => a.name ≤ b.name)
    ∧ (load_countries data).Perm (data.filterMap buildCountry)
    ∧ ∀ c : RawCountry,
        ((∃ co, buildCountry c = some co) ↔
          (strTruthy (rawName c) = true ∧ strTruthy c.cca2 = true
            ∧ c.currencies.getD [] ≠ [])) := by
  have htrans : ∀ a b c : Country, decide (a.name ≤ b.name) = true →
      decide (b.name ≤ c.name) = true → decide (a.name ≤ c.name) = true := by
    intro a b c h1 h2
    rw [decide_eq_true_iff] at h1 h2 ⊢
    exact le_trans h1 h2
  have htotal : ∀ a b : Country,
      (decide (a.name ≤ b.name) || decide (b.name ≤ a.name)) = true := by
    intro a b
    simp [le_total]
  refine ⟨?_, ?_, ?_⟩
  · have hs := List.sorted_mergeSort htrans htotal (data.filterMap buildCountry)
    simp only [load_countries]
    exact hs.imp (fun h => by simpa using h)
  · simpa only [load_countries] using
      List.mergeSort_perm (data.filterMap buildCountry)
        (fun a b => decide (a.name ≤ b.name))
  · intro c
    rcases hn : rawName c with _ | name
    · simp [buildCountry, strTruthy, hn]
    rcases hc2 : c.cca2 with _ | cca2
    · simp [buildCountry, strTruthy, hn, hc2]
    rcases hcur : c.currencies.getD [] with _ | ⟨⟨code, info⟩, rest⟩
    · simp [buildCountry, strTruthy, hn, hc2, hcur]
    · by_cases he1 : name.isEmpty <;> by_cases he2 : cca2.isEmpty <;>
        simp [buildCountry, strTruthy, hn, hc2, hcur, he1, he2]

/-- C5: every retained country takes its `currency_code` from the first key
of the provider's currencies mapping (provider order), its `currency_name`
from that entry's name defaulting to the code itself, and its
`currency_symbol` from that entry's symbol defaulting to `""`. -/
theorem buildCountry_currency_fields (c : RawCountry) (country : Country)
    (h : buildCountry c = some country) :
    ∃ code info rest, c.currencies.getD [] = (code, info) :: rest
      ∧ country.currency_code = code
      ∧ country.currency_name = strOr info.name code
      ∧ country.currency_symbol = strOr info.symbol "" := by
  rcases hn : rawName c with _ | name
  · simp [buildCountry, hn] at h
  rcases hc2 : c.cca2 with _ | cca2
  · simp [buildCountry, hn, hc2] at h
  rcases hcur : c.currencies.getD [] with _ | ⟨⟨code, info⟩, rest⟩
  · simp [buildCountry, hn, hc2, hcur] at h
  · simp only [buildCountry, hn, hc2, hcur, List.map_cons] at h
    split at h
    · exact absurd h (by simp)
    · rw [Option.some_inj] at h
      subst h
      refine ⟨code, info, rest, rfl, rfl, ?_, ?_⟩
      · simp [List.lookup]
      · simp [List.lookup]

/-- Witness for `buildCountry_currency_fields` on the Japan record. -/
theorem buildCountry_currency_fields_witness :
    buildCountry rawJapan = some builtJapan
    ∧ ∃ code info rest, rawJapan.currencies.getD [] = (code, info) :: rest
        ∧ builtJapan.currency_code = code
        ∧ builtJapan.currency_name = strOr info.name code
        ∧ builtJapan.currency_symbol = strOr info.symbol "" :=
  ⟨by decide, buildCountry_currency_fields rawJapan builtJapan (by decide)⟩

/-- C9: the multi-destination comparison output is a permutation of the
built rows, sorted by `pct` (the `% vs ~1y` field) descending, with rows of
equal `pct` kept in their original selection order (filtering at any fixed
`pct` value is unchanged by the sort); on the stubbed scenario
A(+10%), B(0%), C(-10%) the ordered result is `[A, B, C]` and the most
favorable row (`head?`) is A at +10%. -/
theorem compare_flow_spec (countries : List Country) (home : String)
    (getRate : Date → String → String → Rat) (today d1y : Date)
    (labels : List String) :
    (compare_flow countries home getRate today d1y labels).Perm
        (build_rows countries home getRate today d1y labels)
    ∧ (compare_flow countries home getRate today d1y labels).Pairwise
        (fun a b => b.pct ≤ a.pct)
    ∧ (∀ v : Rat,
        (compare_flow countries home getRate today d1y labels).filter
            (fun r => decide (r.pct = v))
          = (build_rows countries home getRate today d1y labels).filter
            (fun r => decide (r.pct = v)))
    ∧ compare_flow [countryA, countryB, countryC] "USD" exRate exToday exPast
        ["Aland (AAA)", "Bland (BBB)", "Cland (CCC)"] = [rowA, rowB, rowC]
    ∧ (compare_flow [countryA, countryB, countryC] "USD" exRate exToday exPast
        ["Aland (AAA)", "Bland (BBB)", "Cland (CCC)"]).head? = some rowA
    ∧ rowA.pct = 10 := by
  have htrans : ∀ a b c : Row, decide (b.pct ≤ a.pct) = true →
      decide (c.pct ≤ b.pct) = true → decide (c.pct ≤ a.pct) = true := by
    intro a b c h1 h2
    rw [decide_eq_true_iff] at h1 h2 ⊢
    exact le_trans h2 h1
  have htotal : ∀ a b : Row,
      (decide (b.pct ≤ a.pct) || decide (a.pct ≤ b.pct)) = true := by
    intro a b
    simp [le_total]
  have hconc : compare_flow [countryA, countryB, countryC] "USD" exRate exToday exPast
      ["Aland (AAA)", "Bland (BBB)", "Cland (CCC)"] = [rowA, rowB, rowC] := by
    have hA : labelName "Aland (AAA)" = "Aland" := by decide
    have hB : labelName "Bland (BBB)" = "Bland" := by decide
    have hC : labelName "Cland (CCC)" = "Cland" := by decide
    have hb : build_rows [countryA, countryB, countryC] "USD" exRate exToday exPast
        ["Aland (AAA)", "Bland (BBB)", "Cland (CCC)"] = [rowA, rowB, rowC] := by
      simp [build_rows, hA, hB, hC, name_to_country, countryA, countryB, countryC,
        List.lookup, exRate, exToday, exPast, rowA, rowB, rowC, pct_change,
        favorability_label]
      norm_num
    have hsorted : List.Pairwise
        (fun a b : Row => decide (b.pct ≤ a.pct) = true) [rowA, rowB, rowC] := by
      simp [rowA, rowB, rowC, List.pairwise_cons, decide_eq_true_iff]
    simp only [compare_flow, sort_rows, hb]
    exact List.mergeSort_of_sorted hsorted
  refine ⟨?_, ?_, ?_, hconc, ?_, rfl⟩
  · simpa only [compare_flow, sort_rows] using
      List.mergeSort_perm (build_rows countries home getRate today d1y labels)
        (fun a b => decide (b.pct ≤ a.pct))
  · have hs := List.sorted_mergeSort htrans htotal
      (build_rows countries home getRate today d1y labels)
    simp only [compare_flow, sort_rows]
    exact hs.imp (fun h => by simpa using h)
  · intro v
    have hmem : ∀ r ∈ (build_rows countries home getRate today d1y labels).filter
        (fun r => decide (r.pct = v)), r.pct = v := by
      intro r hr
      simpa using List.of_mem_filter hr
    have hpair : ((build_rows countries home getRate today d1y labels).filter
        (fun r => decide (r.pct = v))).Pairwise
        (fun a b : Row => decide (b.pct ≤ a.pct) = true) := by
      apply List.pairwise_of_forall_mem_list
      intro a ha b hb
      rw [decide_eq_true_iff, hmem a ha, hmem b hb]
    have hsub : List.Sublist
        ((build_rows countries home getRate today d1y labels).filter
          (fun r => decide (r.pct = v)))
        (List.mergeSort (build_rows countries home getRate today d1y labels)
          (fun a b => decide (b.pct ≤ a.pct))) :=
      List.sublist_mergeSort htrans htotal hpair
        (List.filter_sublist (build_rows countries home getRate today d1y labels))
    have h2 : List.Sublist
        ((build_rows countries home getRate today d1y labels).filter
          (fun r => decide (r.pct = v)))
        ((List.mergeSort (build_rows countries home getRate today d1y labels)
          (fun a b => decide (b.pct ≤ a.pct))).filter (fun r => decide (r.pct = v))) := by
      have h3 := hsub.filter (fun r => decide (r.pct = v))
      simpa [List.filter_filter] using h3
    have hperm : ((List.mergeSort (build_rows countries home getRate today d1y labels)
        (fun a b => decide (b.pct ≤ a.pct))).filter (fun r => decide (r.pct = v))).Perm
        ((build_rows countries home getRate today d1y labels).filter
          (fun r => decide (r.pct = v))) :=
      (List.mergeSort_perm (build_rows countries home getRate today d1y labels)
        (fun a b => decide (b.pct ≤ a.pct))).filter (fun r => decide (r.pct = v))
    have heq := h2.eq_of_length hperm.length_eq.symm
    simp only [compare_flow, sort_rows]
    exact heq.symm
  · simp [hconc]

end TravelApp
